import Mathlib

/-!
Shallow embedding of the conversation and notification core of the
social-networking backend (routes/chats.js, routes/users.js,
utils/notifications.js), together with theorems settling the frozen claims
about that core.

Conventions of the embedding:
* Firestore documents become Lean structures; a collection is a `List` of
  documents whose generated doc ids are drawn from a `nextId : Nat` counter
  on the global state `DB`.
* JavaScript object maps (the per-participant `unreadCount` map) become
  association lists `List (String × Nat)` with JS field-access semantics
  (`getCount` defaults to `0`, `setCount` replaces the binding in place).
* Absent request fields become `""` (the only falsy string in JS is the
  empty one), timestamps (`new Date()`) become explicit `now : Nat`
  parameters, and the push gateway becomes a function
  `String → PushResult` giving each token's delivery outcome.
* The notification dispatcher, where it is invoked as a secondary effect of
  a route handler, is passed in as a fallible function `NotifyFn`
  (`Except Unit DB`), mirroring the fact that `sendNotification` rethrows
  internal failures to its caller.
-/

/-- The last-message snapshot stored on a chat document
(`lastMessage: { text, senderId, type }` in routes/chats.js). -/
structure LastMessage where
  text : String
  senderId : String
  type : String
deriving Repr, DecidableEq

/-- A chat document (`collections.chats`), keyed by its `chatId` field. -/
structure Chat where
  chatId : String
  participants : List String
  createdAt : Nat
  lastMessageAt : Nat
  lastMessage : LastMessage
  unreadCount : List (String × Nat)
deriving Repr, DecidableEq

/-- A message document (`collections.messages`). -/
structure Message where
  messageId : Nat
  chatId : String
  senderId : String
  text : String
  mediaUrl : String
  type : String
  read : Bool
  createdAt : Nat
deriving Repr, DecidableEq

/-- A user document (`collections.users`), restricted to the fields the
conversation/notification core touches. -/
structure User where
  uid : String
  name : String
  fcmTokens : List String
  following : List String
  followers : List String
deriving Repr, DecidableEq

/-- A notification document (`collections.notifications`). -/
structure Notif where
  notificationId : Nat
  userId : String
  type : String
  actorId : String
  actorName : String
  message : String
  data : List (String × String)
  read : Bool
  createdAt : Nat
deriving Repr, DecidableEq

/-- A follow-edge document (`collections.follows`), keyed by
`followerId_followingId`. -/
structure Follow where
  followId : String
  followerId : String
  followingId : String
  createdAt : Nat
deriving Repr, DecidableEq

/-- The whole document store: the five collections used by the core plus the
doc-id generator. -/
structure DB where
  users : List User
  chats : List Chat
  messages : List Message
  notifications : List Notif
  follows : List Follow
  nextId : Nat
deriving Repr, DecidableEq

/-- Outcome of one push delivery (`messaging.sendToDevice`): success, one of
the two invalid-token error codes the code tests for, or any other
(transient) error. -/
inductive PushResult where
  | ok
  | invalidRegistrationToken
  | registrationTokenNotRegistered
  | otherError
deriving Repr, DecidableEq

/-- The response envelope: either a success JSON (`error: false`) with an
HTTP status and payload, or a failure JSON (`error: true`) with a status
and message. -/
inductive Resp (α : Type) where
  | ok (status : Nat) (data : α)
  | err (status : Nat) (message : String)
deriving Repr, DecidableEq

/-- JS map read `m[k] || 0` on the unread-count object. -/
def getCount : List (String × Nat) → String → Nat
  | [], _ => 0
  | p :: rest, k => if p.1 = k then p.2 else getCount rest k

/-- JS map write `m[k] = v` on (a copy of) the unread-count object. -/
def setCount : List (String × Nat) → String → Nat → List (String × Nat)
  | [], k, v => [(k, v)]
  | p :: rest, k, v => if p.1 = k then (k, v) :: rest else p :: setCount rest k v

/-- Document lookup by key field: `collections.chats.doc(chatId).get()`. -/
def findChat (db : DB) (chatId : String) : Option Chat :=
  db.chats.find? (fun c => decide (c.chatId = chatId))

/-- Document lookup by key field: `collections.users.doc(uid).get()`. -/
def findUser (db : DB) (uid : String) : Option User :=
  db.users.find? (fun u => decide (u.uid = uid))

/-- `collections.chats.doc(chatId).set(data)`: replace the document with
this key (create if absent). -/
def setChatDoc (chats : List Chat) (c : Chat) : List Chat :=
  chats.filter (fun d => decide (d.chatId ≠ c.chatId)) ++ [c]

/-- `collections.follows.doc(key).set(data)`: replace the document with this
key (create if absent). -/
def setFollowDoc (follows : List Follow) (f : Follow) : List Follow :=
  follows.filter (fun g => decide (g.followId ≠ f.followId)) ++ [f]

/-- Chat identity derivation in `POST /api/chats/create`:
`[uid, otherUserId].sort()` (lexicographic) then `.join('_')`. -/
def deriveChatId (uid otherUserId : String) : String :=
  let participants := if uid ≤ otherUserId then [uid, otherUserId] else [otherUserId, uid]
  String.intercalate "_" participants

/-- The sorted participant pair used both for the chat key and the stored
`participants` field. -/
def sortedParticipants (uid otherUserId : String) : List String :=
  if uid ≤ otherUserId then [uid, otherUserId] else [otherUserId, uid]

/-- The chat document written by the create branch of
`POST /api/chats/create`: zero unread counts for both participants
(a single zero entry when the two ids coincide, as the JS computed-key
object literal collapses them) and an empty last-message snapshot. -/
def newChatData (uid otherUserId : String) (now : Nat) : Chat :=
  { chatId := String.intercalate "_" (sortedParticipants uid otherUserId)
    participants := sortedParticipants uid otherUserId
    createdAt := now
    lastMessageAt := now
    lastMessage := { text := "", senderId := "", type := "text" }
    unreadCount := setCount (setCount [] uid 0) otherUserId 0 }

/-- The partial view of a chat returned by `POST /api/chats/create`
(profile-card fields of the other user omitted). -/
structure ChatRespView where
  chatId : String
  otherUserUid : String
  lastMessage : LastMessage
  lastMessageAt : Nat
  unreadCount : Nat
deriving Repr, DecidableEq

/-- `POST /api/chats/create` (routes/chats.js): create or get a chat with
another user. `now` is the server clock value used for `new Date()`. -/
def createChatHandler (db : DB) (uid otherUserId : String) (now : Nat) :
    DB × Resp ChatRespView :=
  if otherUserId = "" then
    (db, .err 400 "Other user ID is required")
  else
    match findUser db otherUserId with
    | none => (db, .err 404 "User not found")
    | some _ =>
      let participants := sortedParticipants uid otherUserId
      let chatId := String.intercalate "_" participants
      match findChat db chatId with
      | some chatData =>
        (db, .ok 200
          { chatId := chatData.chatId
            otherUserUid := otherUserId
            lastMessage := chatData.lastMessage
            lastMessageAt := chatData.lastMessageAt
            unreadCount := getCount chatData.unreadCount uid })
      | none =>
        let chatData := newChatData uid otherUserId now
        ({ db with chats := setChatDoc db.chats chatData },
         .ok 201
          { chatId := chatId
            otherUserUid := otherUserId
            lastMessage := chatData.lastMessage
            lastMessageAt := chatData.lastMessageAt
            unreadCount := 0 })

/-- `String.prototype.trim()` from the validation check of
`POST /api/chats/:chatId/send`: strip leading and trailing whitespace. -/
def jsTrim (s : String) : String :=
  String.mk (((s.data.dropWhile Char.isWhitespace).reverse.dropWhile
    Char.isWhitespace).reverse)

/-- The two error codes `sendNotification` treats as "token no longer
valid" (`messaging/invalid-registration-token`,
`messaging/registration-token-not-registered`). -/
def isInvalidTokenError : PushResult → Bool
  | .invalidRegistrationToken => true
  | .registrationTokenNotRegistered => true
  | _ => false

/-- The arguments of `sendNotification` (utils/notifications.js). -/
structure NotifyArgs where
  userId : String
  type : String
  actorId : String
  actorName : String
  message : String
  data : List (String × String)
deriving Repr, DecidableEq

/-- What a call to `sendNotification` produces: the store afterwards, the
list of per-token delivery attempts with their outcomes, and whether the
call threw to its caller (the function rethrows from its outer catch). -/
structure NotifyOutcome where
  db : DB
  attempts : List (String × PushResult)
  threw : Bool
deriving Repr, DecidableEq

/-- `sendNotification` (utils/notifications.js): persist the notification
record, then fan pushes out to every registered token of the recipient.
The per-token `.catch` logs and swallows a transient delivery error, but
its invalid-token branch evaluates `db.FieldValue.arrayRemove(token)` —
and `db` here is the `admin.firestore()` *instance* (config/firebase.js),
which has no `FieldValue` property (`FieldValue` is a static of the
`admin.firestore` namespace).  So that branch dereferences `undefined` and
throws, the per-token promise rejects, `Promise.all` rejects, and the
outer catch rethrows: whenever some token's delivery fails with an
invalid-token error code, no token is removed from the user document and
the whole call throws.  The user's token set is never modified on any
path. -/
def sendNotification (gw : String → PushResult) (db : DB) (a : NotifyArgs)
    (now : Nat) : NotifyOutcome :=
  let notificationData : Notif :=
    { notificationId := db.nextId
      userId := a.userId
      type := a.type
      actorId := a.actorId
      actorName := a.actorName
      message := a.message
      data := a.data
      read := false
      createdAt := now }
  let db1 : DB :=
    { db with
      notifications := db.notifications ++ [notificationData]
      nextId := db.nextId + 1 }
  match findUser db1 a.userId with
  | none => { db := db1, attempts := [], threw := false }
  | some userData =>
    if userData.fcmTokens.isEmpty then { db := db1, attempts := [], threw := false }
    else
      let attempts := userData.fcmTokens.map (fun t => (t, gw t))
      if userData.fcmTokens.any (fun t => isInvalidTokenError (gw t)) then
        { db := db1, attempts := attempts, threw := true }
      else
        { db := db1, attempts := attempts, threw := false }

/-- A notification dispatcher as seen by a route handler: it may update the
store, or fail (the `sendNotification` promise rejecting). -/
def NotifyFn : Type := DB → NotifyArgs → Except Unit DB

/-- The dispatcher that runs the modelled `sendNotification` against a given
push gateway and clock, failing exactly when that call throws. -/
def notifyVia (gw : String → PushResult) (now : Nat) : NotifyFn :=
  fun db a =>
    let r := sendNotification gw db a now
    if r.threw then Except.error () else Except.ok r.db

/-- A dispatcher whose invocation fails (dependency failure inside
`sendNotification`, which rethrows). -/
def notifyFailing : NotifyFn := fun _ _ => Except.error ()

/-- The message document built by `POST /api/chats/:chatId/send` before its
transaction (`messageRef.id` is the freshly generated doc id). -/
def newMessageData (db : DB) (uid chatId text mediaUrl type_ : String)
    (now : Nat) : Message :=
  { messageId := db.nextId
    chatId := chatId
    senderId := uid
    text := text
    mediaUrl := mediaUrl
    type := type_
    read := false
    createdAt := now }

/-- The body of the `db.runTransaction` block in
`POST /api/chats/:chatId/send`: append the message document and update the
chat's last-message snapshot, last-message time and unread-count map.  The
written unread-count map is computed from `chatData`, the chat snapshot the
handler read *before* the transaction (there is no read inside the
transaction), exactly as in the source. -/
def sendMessageTxn (db : DB) (chatData : Chat) (messageData : Message)
    (otherParticipantId : String) : DB :=
  { db with
    nextId := db.nextId + 1
    messages := db.messages ++ [messageData]
    chats := db.chats.map (fun c =>
      if c.chatId = messageData.chatId then
        { c with
          lastMessage :=
            { text := if messageData.type = "text" then messageData.text
                      else "Sent an image"
              senderId := messageData.senderId
              type := messageData.type }
          lastMessageAt := messageData.createdAt
          unreadCount :=
            setCount chatData.unreadCount otherParticipantId
              (getCount chatData.unreadCount otherParticipantId + 1) }
      else c) }

/-- `POST /api/chats/:chatId/send` (routes/chats.js).  Absent `text` /
`mediaUrl` request fields are the empty string; `type` defaults to
`"text"` at the destructuring site, so callers pass it explicitly here.
The notification dispatch after the transaction is wrapped in try/catch:
a dispatcher failure is swallowed and the handler still answers 201. -/
def sendMessageHandler (notify : NotifyFn) (db : DB)
    (uid chatId text mediaUrl type_ : String) (now : Nat) :
    DB × Resp Message :=
  if type_ = "text" ∧ (text = "" ∨ jsTrim text = "") then
    (db, .err 400 "Message text is required")
  else if type_ = "image" ∧ mediaUrl = "" then
    (db, .err 400 "Media URL is required for image messages")
  else
    match findChat db chatId with
    | none => (db, .err 404 "Chat not found")
    | some chatData =>
      if uid ∈ chatData.participants then
        let otherParticipantId :=
          (chatData.participants.find? (fun id => decide (id ≠ uid))).getD "undefined"
        let messageData := newMessageData db uid chatId text mediaUrl type_ now
        let db1 := sendMessageTxn db chatData messageData otherParticipantId
        let db2 :=
          match findUser db1 uid with
          | none => db1
          | some senderData =>
            match notify db1
              { userId := otherParticipantId
                type := "message"
                actorId := uid
                actorName := senderData.name
                message := senderData.name ++ ": " ++
                  (if type_ = "text" then text else "Sent you an image")
                data := [("chatId", chatId), ("messageId", toString messageData.messageId)] } with
            | .ok d => d
            | .error _ => db1
        (db2, .ok 201 messageData)
      else
        (db, .err 403 "Not authorized to send messages in this chat")

/-- `POST /api/chats/:chatId/read` (routes/chats.js): flip every unread
message of the chat not sent by the caller, and reset the caller's unread
counter — but only when the unread query returned at least one document. -/
def markChatReadHandler (db : DB) (uid chatId : String) : DB × Resp Unit :=
  match findChat db chatId with
  | none => (db, .err 404 "Chat not found")
  | some chatData =>
    if uid ∈ chatData.participants then
      let unreads := db.messages.filter (fun m =>
        decide (m.chatId = chatId) && decide (m.senderId ≠ uid) && !m.read)
      if unreads.isEmpty then
        (db, .ok 200 ())
      else
        ({ db with
           messages := db.messages.map (fun m =>
             if m.chatId = chatId ∧ m.senderId ≠ uid ∧ m.read = false then
               { m with read := true }
             else m)
           chats := db.chats.map (fun c =>
             if c.chatId = chatId then
               { c with unreadCount := setCount chatData.unreadCount uid 0 }
             else c) },
         .ok 200 ())
    else
      (db, .err 403 "Not authorized to access this chat")

/-- Insert one element into a list already ordered by descending key
(model of the store's `orderBy('createdAt', 'desc')`). -/
def insertDescBy {α : Type} (key : α → Nat) (m : α) : List α → List α
  | [] => [m]
  | x :: xs => if key x < key m then m :: x :: xs else x :: insertDescBy key m xs

/-- Sort a list by descending key: the store's
`orderBy('createdAt', 'desc')` over a filtered collection. -/
def sortDescBy {α : Type} (key : α → Nat) : List α → List α
  | [] => []
  | x :: xs => insertDescBy key x (sortDescBy key xs)

/-- `query.startAfter(lastDoc)` under descending `createdAt` order: keep the
items strictly after the cursor document's position (doc id breaking
`createdAt` ties). -/
def afterCursorPos {α : Type} (key : α → Nat) (docId : α → Nat)
    (lastDoc : α) (m : α) : Bool :=
  decide (key m < key lastDoc) ||
    (decide (key m = key lastDoc) && decide (docId lastDoc < docId m))

/-- The page returned by `GET /api/chats/:chatId/messages`. -/
structure MessagesPage where
  messages : List Message
  lastId : Option Nat
  hasMore : Bool
deriving Repr, DecidableEq

/-- The query pipeline of `GET /api/chats/:chatId/messages`:
`where('chatId','==',chatId).orderBy('createdAt','desc').limit(limit)`,
with `startAfter` applied only when `lastId` names an existing document. -/
def messagesPageDocs (db : DB) (chatId : String) (limit : Nat)
    (lastId : Option Nat) : List Message :=
  let sorted := sortDescBy (fun m => m.createdAt)
    (db.messages.filter (fun m => decide (m.chatId = chatId)))
  let positioned :=
    match lastId with
    | none => sorted
    | some lid =>
      match db.messages.find? (fun (m : Message) => decide (m.messageId = lid)) with
      | none => sorted
      | some lastDoc =>
        sorted.filter (afterCursorPos (fun m => m.createdAt) (fun m => m.messageId) lastDoc)
  positioned.take limit

/-- The ids of the documents the listing handler's batch flips to read:
the page's messages that are unread and not sent by the caller. -/
def flippedIdsOf (db : DB) (uid chatId : String) (limit : Nat)
    (lastId : Option Nat) : List Nat :=
  ((messagesPageDocs db chatId limit lastId).filter
    (fun m => decide (m.senderId ≠ uid) && !m.read)).map (fun m => m.messageId)

/-- `GET /api/chats/:chatId/messages` (routes/chats.js): paginated listing
with the read-acknowledgement-on-view side effect. -/
def getMessagesHandler (db : DB) (uid chatId : String) (limit : Nat)
    (lastId : Option Nat) : DB × Resp MessagesPage :=
  match findChat db chatId with
  | none => (db, .err 404 "Chat not found")
  | some chatData =>
    if uid ∈ chatData.participants then
      let docs := messagesPageDocs db chatId limit lastId
      let flippedIds := flippedIdsOf db uid chatId limit lastId
      let unreadCount := flippedIds.length
      let messages' := db.messages.map (fun m =>
        if m.messageId ∈ flippedIds then { m with read := true } else m)
      let chats' :=
        if 0 < unreadCount then
          let newCount := Nat.max 0 (getCount chatData.unreadCount uid - unreadCount)
          db.chats.map (fun c =>
            if c.chatId = chatId then
              { c with unreadCount := setCount chatData.unreadCount uid newCount }
            else c)
        else db.chats
      ({ db with messages := messages', chats := chats' },
       .ok 200
        { messages := docs
          lastId := (docs.getLast?).map (fun m => m.messageId)
          hasMore := decide (limit ≤ docs.length) })
    else
      (db, .err 403 "Not authorized to view messages in this chat")

/-- The page returned by `getUserNotifications`. -/
structure NotifsPage where
  notifications : List Notif
  lastId : Option Nat
  hasMore : Bool
deriving Repr, DecidableEq

/-- `getUserNotifications` (utils/notifications.js): same pagination
pipeline over the caller's notifications; no store mutation. -/
def getUserNotifications (db : DB) (userId : String) (limit : Nat)
    (lastId : Option Nat) : NotifsPage :=
  let sorted := sortDescBy (fun n => n.createdAt)
    (db.notifications.filter (fun n => decide (n.userId = userId)))
  let positioned :=
    match lastId with
    | none => sorted
    | some lid =>
      match db.notifications.find? (fun (n : Notif) => decide (n.notificationId = lid)) with
      | none => sorted
      | some lastDoc =>
        sorted.filter (afterCursorPos (fun n => n.createdAt) (fun n => n.notificationId) lastDoc)
  let docs := positioned.take limit
  { notifications := docs
    lastId := (docs.getLast?).map (fun n => n.notificationId)
    hasMore := decide (limit ≤ docs.length) }

/-- `markNotificationsAsRead` (utils/notifications.js): with a non-empty id
list, flip exactly the listed notifications that exist and belong to the
caller; otherwise flip every currently-unread notification of the caller.
One atomic batch either way. -/
def markNotificationsAsRead (db : DB) (userId : String)
    (notificationIds : List Nat) : DB :=
  if 0 < notificationIds.length then
    { db with notifications := db.notifications.map (fun n =>
        if n.notificationId ∈ notificationIds ∧ n.userId = userId then
          { n with read := true }
        else n) }
  else
    { db with notifications := db.notifications.map (fun n =>
        if n.userId = userId ∧ n.read = false then { n with read := true } else n) }

/-- `POST /api/users/follow/:userId` (routes/users.js): the three-document
follow transaction, then an *unguarded* `await sendNotification(...)` whose
failure falls through to the route's catch block (500 response), with the
transaction already committed. -/
def followHandler (notify : NotifyFn) (db : DB)
    (currentUserId userId : String) (now : Nat) : DB × Resp Unit :=
  if currentUserId = userId then
    (db, .err 400 "Cannot follow yourself")
  else
    match findUser db userId with
    | none => (db, .err 404 "User not found")
    | some targetUserData =>
      match findUser db currentUserId with
      | none => (db, .err 500 "Failed to follow user")
      | some currentUserData =>
        if userId ∈ currentUserData.following then
          (db, .err 400 "Already following this user")
        else
          let db1 : DB :=
            { db with
              users := db.users.map (fun u =>
                if u.uid = currentUserId then
                  { u with following := currentUserData.following ++ [userId] }
                else if u.uid = userId then
                  { u with followers := targetUserData.followers ++ [currentUserId] }
                else u)
              follows := setFollowDoc db.follows
                { followId := currentUserId ++ "_" ++ userId
                  followerId := currentUserId
                  followingId := userId
                  createdAt := now } }
          match notify db1
            { userId := userId
              type := "follow"
              actorId := currentUserId
              actorName := currentUserData.name
              message := currentUserData.name ++ " started following you"
              data := [("followerId", currentUserId)] } with
          | .ok db2 => (db2, .ok 200 ())
          | .error _ => (db1, .err 500 "Failed to follow user")


/-! ### Helper lemmas about the store primitives -/

theorem getCount_setCount_self (m : List (String × Nat)) (k : String) (v : Nat) :
    getCount (setCount m k v) k = v := by
  induction m with
  | nil => simp [setCount, getCount]
  | cons p rest ih =>
    by_cases h : p.1 = k
    · simp [setCount, getCount, h]
    · simp [setCount, getCount, h, ih]

theorem getCount_setCount_ne (m : List (String × Nat)) (k k' : String) (v : Nat)
    (h : k' ≠ k) :
    getCount (setCount m k v) k' = getCount m k' := by
  induction m with
  | nil => simp [setCount, getCount, Ne.symm h]
  | cons p rest ih =>
    by_cases hp : p.1 = k
    · simp [setCount, getCount, hp, Ne.symm h]
    · simp [setCount, getCount, hp, ih]

theorem find?_map_of_pres {α : Type} (p : α → Bool) (g : α → α)
    (hg : ∀ a, p (g a) = p a) (l : List α) :
    (l.map g).find? p = (l.find? p).map g := by
  induction l with
  | nil => rfl
  | cons a l ih =>
    by_cases h : p a
    · simp [List.find?, hg, h]
    · simp [List.find?, hg, h, ih]

theorem mem_insertDescBy {α : Type} (key : α → Nat) (m a : α) (l : List α) :
    a ∈ insertDescBy key m l ↔ a = m ∨ a ∈ l := by
  induction l with
  | nil => simp [insertDescBy]
  | cons x xs ih =>
    by_cases h : key x < key m
    · simp [insertDescBy, h]
    · simp only [insertDescBy, h, if_false, List.mem_cons, ih]
      tauto

theorem mem_sortDescBy {α : Type} (key : α → Nat) (a : α) (l : List α) :
    a ∈ sortDescBy key l ↔ a ∈ l := by
  induction l with
  | nil => simp [sortDescBy]
  | cons x xs ih => simp [sortDescBy, mem_insertDescBy, ih]

theorem find?_setChatDoc (chats : List Chat) (c : Chat) :
    (setChatDoc chats c).find? (fun d => decide (d.chatId = c.chatId)) = some c := by
  unfold setChatDoc
  induction chats with
  | nil => simp [List.find?]
  | cons d rest ih =>
    by_cases h : d.chatId = c.chatId
    · simp [List.filter_cons, h, ih]
    · simp [List.filter_cons, h, List.find?, ih]

/-! ### Claim C8: get-or-create chat is idempotent -/

/-- C8: get-or-create chat is idempotent.  When a chat for the pair already
exists, the handler returns its id and leaves the store completely
unchanged (no counter reset, no last-message reset); when none exists, it
creates one with zero unread counts for both participants and an empty
last-message snapshot, and a repeat call then returns the same chat id
without modifying the store. -/
theorem createChat_idempotent (db : DB) (uid otherUserId : String)
    (now now2 : Nat) (otherUser : User)
    (hvalid : otherUserId ≠ "")
    (huser : findUser db otherUserId = some otherUser) :
    (∀ c, findChat db (deriveChatId uid otherUserId) = some c →
      createChatHandler db uid otherUserId now =
        (db, .ok 200
          { chatId := c.chatId
            otherUserUid := otherUserId
            lastMessage := c.lastMessage
            lastMessageAt := c.lastMessageAt
            unreadCount := getCount c.unreadCount uid })) ∧
    (findChat db (deriveChatId uid otherUserId) = none →
      createChatHandler db uid otherUserId now =
        ({ db with chats := setChatDoc db.chats (newChatData uid otherUserId now) },
         .ok 201
          { chatId := deriveChatId uid otherUserId
            otherUserUid := otherUserId
            lastMessage := { text := "", senderId := "", type := "text" }
            lastMessageAt := now
            unreadCount := 0 }) ∧
      getCount (newChatData uid otherUserId now).unreadCount uid = 0 ∧
      getCount (newChatData uid otherUserId now).unreadCount otherUserId = 0 ∧
      createChatHandler
          { db with chats := setChatDoc db.chats (newChatData uid otherUserId now) }
          uid otherUserId now2 =
        ({ db with chats := setChatDoc db.chats (newChatData uid otherUserId now) },
         .ok 200
          { chatId := deriveChatId uid otherUserId
            otherUserUid := otherUserId
            lastMessage := { text := "", senderId := "", type := "text" }
            lastMessageAt := now
            unreadCount := getCount (newChatData uid otherUserId now).unreadCount uid })) := by
  have hderive : deriveChatId uid otherUserId =
      String.intercalate "_" (sortedParticipants uid otherUserId) := rfl
  have hzero : ∀ u, (u = uid ∨ u = otherUserId) →
      getCount (setCount (setCount [] uid 0) otherUserId 0) u = 0 := by
    intro u hu
    by_cases h : uid = otherUserId <;> rcases hu with rfl | rfl <;>
      simp [setCount, getCount, h]
  constructor
  · intro c hc
    rw [hderive] at hc
    simp only [createChatHandler, if_neg hvalid, huser, hc]
  · intro hnone
    rw [hderive] at hnone
    have hfirst : createChatHandler db uid otherUserId now =
        ({ db with chats := setChatDoc db.chats (newChatData uid otherUserId now) },
         .ok 201
          { chatId := deriveChatId uid otherUserId
            otherUserUid := otherUserId
            lastMessage := { text := "", senderId := "", type := "text" }
            lastMessageAt := now
            unreadCount := 0 }) := by
      simp only [createChatHandler, if_neg hvalid, huser, hnone]
      rfl
    refine ⟨hfirst, hzero uid (Or.inl rfl), hzero otherUserId (Or.inr rfl), ?_⟩
    have husers2 : findUser
        { db with chats := setChatDoc db.chats (newChatData uid otherUserId now) }
        otherUserId = some otherUser := huser
    have hfind2 : findChat
        { db with chats := setChatDoc db.chats (newChatData uid otherUserId now) }
        (String.intercalate "_" (sortedParticipants uid otherUserId)) =
        some (newChatData uid otherUserId now) := by
      have := find?_setChatDoc db.chats (newChatData uid otherUserId now)
      simpa [findChat, newChatData] using this
    simp only [createChatHandler, if_neg hvalid, husers2, hfind2]
    rfl

/-! ### Concrete sample data shared by the witnesses -/

/-- A sample user. -/
def sampleUserA : User :=
  { uid := "alice", name := "Alice", fcmTokens := ["tokA"],
    following := [], followers := [] }

/-- A sample user. -/
def sampleUserB : User :=
  { uid := "bob", name := "Bob", fcmTokens := ["tokB"],
    following := [], followers := [] }

/-- A sample store holding the two users and nothing else. -/
def sampleDB0 : DB :=
  { users := [sampleUserA, sampleUserB], chats := [], messages := [],
    notifications := [], follows := [], nextId := 0 }

/-- Witness for C8 at a concrete input: a first call creates the chat
`alice_bob` with zero counters, and a repeat call returns the same id and
leaves the store untouched. -/
theorem createChat_idempotent_witness :
    ("bob" : String) ≠ "" ∧
    findUser sampleDB0 "bob" = some sampleUserB ∧
    findChat sampleDB0 (deriveChatId "alice" "bob") = none ∧
    createChatHandler sampleDB0 "alice" "bob" 3 =
      ({ sampleDB0 with
         chats := setChatDoc sampleDB0.chats (newChatData "alice" "bob" 3) },
       .ok 201
        { chatId := deriveChatId "alice" "bob"
          otherUserUid := "bob"
          lastMessage := { text := "", senderId := "", type := "text" }
          lastMessageAt := 3
          unreadCount := 0 }) ∧
    createChatHandler
        { sampleDB0 with
          chats := setChatDoc sampleDB0.chats (newChatData "alice" "bob" 3) }
        "alice" "bob" 7 =
      ({ sampleDB0 with
         chats := setChatDoc sampleDB0.chats (newChatData "alice" "bob" 3) },
       .ok 200
        { chatId := deriveChatId "alice" "bob"
          otherUserUid := "bob"
          lastMessage := { text := "", senderId := "", type := "text" }
          lastMessageAt := 3
          unreadCount := getCount (newChatData "alice" "bob" 3).unreadCount "alice" }) := by
  have h := (createChat_idempotent sampleDB0 "alice" "bob" 3 7 sampleUserB
    (by decide) (by decide)).2 (by decide)
  exact ⟨by decide, by decide, by decide, h.1, h.2.2.2⟩

/-! ### Claim C1: the three atomic effects of a successful send -/

/-- C1: a successful send performs, in its single transaction, exactly
three effects: it appends the one new message document for this chat,
rewrites the chat's last-message snapshot and timestamp to the new
message's content/sender/time (an image message is snapshotted as
"Sent an image"), and bumps the other participant's unread counter by one
while leaving the caller's counter — and every other collection — exactly
as before. -/
theorem sendMessage_effects (notify : NotifyFn) (db : DB)
    (uid chatId text mediaUrl type_ : String) (now : Nat)
    (chatData : Chat) (other : String)
    (hfind : findChat db chatId = some chatData)
    (hpart : uid ∈ chatData.participants)
    (hother : chatData.participants.find? (fun id => decide (id ≠ uid)) = some other)
    (hvalid1 : ¬(type_ = "text" ∧ (text = "" ∨ jsTrim text = "")))
    (hvalid2 : ¬(type_ = "image" ∧ mediaUrl = "")) :
    (sendMessageHandler notify db uid chatId text mediaUrl type_ now).2 =
      .ok 201 (newMessageData db uid chatId text mediaUrl type_ now) ∧
    (sendMessageTxn db chatData (newMessageData db uid chatId text mediaUrl type_ now) other).messages =
      db.messages ++ [newMessageData db uid chatId text mediaUrl type_ now] ∧
    findChat (sendMessageTxn db chatData (newMessageData db uid chatId text mediaUrl type_ now) other) chatId =
      some { chatData with
             lastMessage :=
               { text := if type_ = "text" then text else "Sent an image"
                 senderId := uid
                 type := type_ }
             lastMessageAt := now
             unreadCount :=
               setCount chatData.unreadCount other (getCount chatData.unreadCount other + 1) } ∧
    getCount (setCount chatData.unreadCount other (getCount chatData.unreadCount other + 1)) other =
      getCount chatData.unreadCount other + 1 ∧
    getCount (setCount chatData.unreadCount other (getCount chatData.unreadCount other + 1)) uid =
      getCount chatData.unreadCount uid ∧
    (sendMessageTxn db chatData (newMessageData db uid chatId text mediaUrl type_ now) other).users = db.users ∧
    (sendMessageTxn db chatData (newMessageData db uid chatId text mediaUrl type_ now) other).notifications = db.notifications ∧
    (sendMessageTxn db chatData (newMessageData db uid chatId text mediaUrl type_ now) other).follows = db.follows := by
  have hother' : chatData.participants.find? (fun id => decide (id ≠ uid)) = some other := hother
  have hOtherNe : other ≠ uid := by
    have h := List.find?_some hother
    simpa using h
  have hchatId : chatData.chatId = chatId := by
    have h1 : db.chats.find? (fun c => decide (c.chatId = chatId)) = some chatData := hfind
    have h := List.find?_some h1
    simpa using h
  refine ⟨?_, rfl, ?_, getCount_setCount_self _ _ _, getCount_setCount_ne _ _ _ _ (Ne.symm hOtherNe), rfl, rfl, rfl⟩
  · simp only [sendMessageHandler, if_neg hvalid1, if_neg hvalid2, hfind, if_pos hpart,
      hother, Option.getD_some]
  · show (db.chats.map _).find? _ = _
    rw [find?_map_of_pres]
    · rw [show db.chats.find? (fun c => decide (c.chatId = chatId)) = some chatData from hfind]
      simp [newMessageData, hchatId]
    · intro a
      by_cases h : a.chatId = (newMessageData db uid chatId text mediaUrl type_ now).chatId
      · simp [h]
      · simp [h]

/-- A sample chat between the two sample users, with zero counters. -/
def sampleChatAB : Chat :=
  { chatId := "alice_bob", participants := ["alice", "bob"], createdAt := 0,
    lastMessageAt := 0,
    lastMessage := { text := "", senderId := "", type := "text" },
    unreadCount := [("alice", 0), ("bob", 0)] }

/-- A sample store holding the two users and their chat. -/
def sampleDB1 : DB :=
  { users := [sampleUserA, sampleUserB], chats := [sampleChatAB], messages := [],
    notifications := [], follows := [], nextId := 0 }

/-- An always-successful push gateway. -/
def gwAllOk : String → PushResult := fun _ => PushResult.ok

/-- Witness for C1: Alice sends "hi" in the sample chat; the handler
answers 201, Bob's counter goes from 0 to 1 and Alice's stays 0. -/
theorem sendMessage_effects_witness :
    findChat sampleDB1 "alice_bob" = some sampleChatAB ∧
    "alice" ∈ sampleChatAB.participants ∧
    sampleChatAB.participants.find? (fun id => decide (id ≠ "alice")) = some "bob" ∧
    ¬(("text" : String) = "text" ∧ (("hi" : String) = "" ∨ jsTrim "hi" = "")) ∧
    ¬(("text" : String) = "image" ∧ ("" : String) = "") ∧
    (sendMessageHandler (notifyVia gwAllOk 10) sampleDB1
        "alice" "alice_bob" "hi" "" "text" 10).2 =
      .ok 201 (newMessageData sampleDB1 "alice" "alice_bob" "hi" "" "text" 10) ∧
    getCount (setCount sampleChatAB.unreadCount "bob"
        (getCount sampleChatAB.unreadCount "bob" + 1)) "bob" =
      getCount sampleChatAB.unreadCount "bob" + 1 ∧
    getCount (setCount sampleChatAB.unreadCount "bob"
        (getCount sampleChatAB.unreadCount "bob" + 1)) "alice" =
      getCount sampleChatAB.unreadCount "alice" := by
  have h := sendMessage_effects (notifyVia gwAllOk 10) sampleDB1
    "alice" "alice_bob" "hi" "" "text" 10 sampleChatAB "bob"
    (by decide) (by decide) (by decide) (by decide) (by decide)
  exact ⟨by decide, by decide, by decide, by decide, by decide,
    h.1, h.2.2.2.1, h.2.2.2.2.1⟩

/-! ### Claim C2: mark-chat-read -/

/-- C2: after mark-chat-read by a participant, the caller's unread counter
is zero and every message of the chat not sent by the caller is read.  The
code skips its batch entirely when the unread query comes back empty, so
the counter conclusion rests on the system invariant (hypothesis `hinv`)
that the stored counter equals the number of unread messages from the
other side — the invariant every chat operation maintains. -/
theorem markChatRead_resets (db : DB) (uid chatId : String) (chatData : Chat)
    (hfind : findChat db chatId = some chatData)
    (hpart : uid ∈ chatData.participants)
    (hinv : getCount chatData.unreadCount uid =
      (db.messages.filter (fun m =>
        decide (m.chatId = chatId) && decide (m.senderId ≠ uid) && !m.read)).length) :
    (markChatReadHandler db uid chatId).2 = .ok 200 () ∧
    ((markChatReadHandler db uid chatId).1.chats.find?
        (fun c => decide (c.chatId = chatId))).map
      (fun c => getCount c.unreadCount uid) = some 0 ∧
    ∀ m ∈ (markChatReadHandler db uid chatId).1.messages,
      m.chatId = chatId → m.senderId ≠ uid → m.read = true := by
  have hchatId : chatData.chatId = chatId := by
    have h1 : db.chats.find? (fun c => decide (c.chatId = chatId)) = some chatData := hfind
    simpa using List.find?_some h1
  by_cases hemp : (db.messages.filter (fun m =>
      decide (m.chatId = chatId) && decide (m.senderId ≠ uid) && !m.read)).isEmpty = true
  · have hnil : db.messages.filter (fun m =>
        decide (m.chatId = chatId) && decide (m.senderId ≠ uid) && !m.read) = [] :=
      List.isEmpty_iff.mp hemp
    have hres : markChatReadHandler db uid chatId = (db, .ok 200 ()) := by
      simp only [markChatReadHandler, hfind, if_pos hpart, hemp, if_true]
    rw [hres]
    refine ⟨rfl, ?_, ?_⟩
    · show (db.chats.find? _).map _ = _
      rw [show db.chats.find? (fun c => decide (c.chatId = chatId)) = some chatData from hfind]
      have : getCount chatData.unreadCount uid = 0 := by
        rw [hinv, hnil]; rfl
      simp [this]
    · intro m hm h1 h2
      by_contra hread
      have hread' : m.read = false := by
        cases hr : m.read
        · rfl
        · exact absurd hr hread
      have : m ∈ db.messages.filter (fun m =>
          decide (m.chatId = chatId) && decide (m.senderId ≠ uid) && !m.read) := by
        rw [List.mem_filter]
        exact ⟨hm, by simp [h1, h2, hread']⟩
      rw [hnil] at this
      exact absurd this (List.not_mem_nil m)
  · have hres : markChatReadHandler db uid chatId =
        ({ db with
           messages := db.messages.map (fun m =>
             if m.chatId = chatId ∧ m.senderId ≠ uid ∧ m.read = false then
               { m with read := true }
             else m)
           chats := db.chats.map (fun c =>
             if c.chatId = chatId then
               { c with unreadCount := setCount chatData.unreadCount uid 0 }
             else c) },
         .ok 200 ()) := by
      simp only [markChatReadHandler, hfind, if_pos hpart, hemp, if_false, Bool.false_eq_true]
    rw [hres]
    refine ⟨rfl, ?_, ?_⟩
    · show ((db.chats.map _).find? _).map _ = _
      rw [find?_map_of_pres]
      · rw [show db.chats.find? (fun c => decide (c.chatId = chatId)) = some chatData from hfind]
        simp [hchatId, getCount_setCount_self]
      · intro a
        by_cases h : a.chatId = chatId <;> simp [h]
    · intro m' hm'
      rw [List.mem_map] at hm'
      obtain ⟨m, hm, rfl⟩ := hm'
      by_cases hc : m.chatId = chatId ∧ m.senderId ≠ uid ∧ m.read = false
      · simp [hc]
      · simp only [if_neg hc]
        intro h1 h2
        cases hr : m.read
        · exact absurd ⟨h1, h2, hr⟩ hc
        · rfl

/-- A sample unread message from Bob in the sample chat. -/
def sampleMsgFromBob : Message :=
  { messageId := 0, chatId := "alice_bob", senderId := "bob", text := "yo",
    mediaUrl := "", type := "text", read := false, createdAt := 5 }

/-- The sample chat after Bob's message: Alice has one unread. -/
def sampleChatAB1 : Chat :=
  { chatId := "alice_bob", participants := ["alice", "bob"], createdAt := 0,
    lastMessageAt := 5,
    lastMessage := { text := "yo", senderId := "bob", type := "text" },
    unreadCount := [("alice", 1), ("bob", 0)] }

/-- Sample store: one unread message from Bob, Alice's counter at 1. -/
def sampleDB2 : DB :=
  { users := [sampleUserA, sampleUserB], chats := [sampleChatAB1],
    messages := [sampleMsgFromBob], notifications := [], follows := [],
    nextId := 1 }

/-- Witness for C2: Alice marks the sample chat read; the handler answers
200 and her counter lands on exactly zero. -/
theorem markChatRead_resets_witness :
    findChat sampleDB2 "alice_bob" = some sampleChatAB1 ∧
    "alice" ∈ sampleChatAB1.participants ∧
    getCount sampleChatAB1.unreadCount "alice" =
      (sampleDB2.messages.filter (fun m =>
        decide (m.chatId = "alice_bob") && decide (m.senderId ≠ "alice") && !m.read)).length ∧
    (markChatReadHandler sampleDB2 "alice" "alice_bob").2 = .ok 200 () ∧
    ((markChatReadHandler sampleDB2 "alice" "alice_bob").1.chats.find?
        (fun c => decide (c.chatId = "alice_bob"))).map
      (fun c => getCount c.unreadCount "alice") = some 0 := by
  have h := markChatRead_resets sampleDB2 "alice" "alice_bob" sampleChatAB1
    (by decide) (by decide) (by decide)
  exact ⟨by decide, by decide, by decide, h.1, h.2.1⟩

/-! ### Claim C10: mark-notifications-read with an explicit empty list -/

/-- C10: calling `markNotificationsAsRead` with an explicitly supplied empty
id list takes the same branch as the no-list form (the guard is on the
list's length, and the default value is `[]` too): it flips every
currently-unread notification belonging to the user — not none — and
touches nothing else. -/
theorem markNotificationsRead_emptyList (db : DB) (userId : String) :
    markNotificationsAsRead db userId [] =
      { db with notifications := db.notifications.map (fun n =>
          if n.userId = userId ∧ n.read = false then { n with read := true }
          else n) } ∧
    (∀ n ∈ (markNotificationsAsRead db userId []).notifications,
      n.userId = userId → n.read = true) ∧
    (∀ n ∈ db.notifications, n.userId ≠ userId →
      n ∈ (markNotificationsAsRead db userId []).notifications) ∧
    (markNotificationsAsRead db userId []).users = db.users ∧
    (markNotificationsAsRead db userId []).chats = db.chats ∧
    (markNotificationsAsRead db userId []).messages = db.messages := by
  have hbranch : markNotificationsAsRead db userId [] =
      { db with notifications := db.notifications.map (fun n =>
          if n.userId = userId ∧ n.read = false then { n with read := true }
          else n) } := by
    simp [markNotificationsAsRead]
  refine ⟨hbranch, ?_, ?_, rfl, rfl, rfl⟩
  · intro n' hn'
    rw [hbranch] at hn'
    simp only [List.mem_map] at hn'
    obtain ⟨n, hn, rfl⟩ := hn'
    by_cases hc : n.userId = userId ∧ n.read = false
    · simp [hc]
    · simp only [if_neg hc]
      intro h1
      cases hr : n.read
      · exact absurd ⟨h1, hr⟩ hc
      · rfl
  · intro n hn hne
    rw [hbranch]
    have : (if n.userId = userId ∧ n.read = false then { n with read := true } else n) = n := by
      rw [if_neg]
      rintro ⟨h1, _⟩
      exact hne h1
    exact this ▸ List.mem_map_of_mem _ hn

/-- Witness for C10: a store with one unread and one read notification for
Carol and one for Dave; the empty-list call flips Carol's unread one. -/
theorem markNotificationsRead_emptyList_witness :
    (markNotificationsAsRead
      { users := [], chats := [], messages := [],
        notifications :=
          [{ notificationId := 0, userId := "carol", type := "like",
             actorId := "dave", actorName := "Dave", message := "m0",
             data := [], read := false, createdAt := 1 },
           { notificationId := 1, userId := "dave", type := "follow",
             actorId := "carol", actorName := "Carol", message := "m1",
             data := [], read := false, createdAt := 2 }],
        follows := [], nextId := 2 } "carol" []).notifications =
      [{ notificationId := 0, userId := "carol", type := "like",
         actorId := "dave", actorName := "Dave", message := "m0",
         data := [], read := true, createdAt := 1 },
       { notificationId := 1, userId := "dave", type := "follow",
         actorId := "carol", actorName := "Carol", message := "m1",
         data := [], read := false, createdAt := 2 }] := by
  have h := (markNotificationsRead_emptyList
    { users := [], chats := [], messages := [],
      notifications :=
        [{ notificationId := 0, userId := "carol", type := "like",
           actorId := "dave", actorName := "Dave", message := "m0",
           data := [], read := false, createdAt := 1 },
         { notificationId := 1, userId := "dave", type := "follow",
           actorId := "carol", actorName := "Carol", message := "m1",
           data := [], read := false, createdAt := 2 }],
      follows := [], nextId := 2 } "carol").1
  rw [h]
  decide

/-! ### Claim C3: fan-out, per-token isolation, selective token pruning -/

/-- C3 (code bug): for a recipient that exists and has registered tokens,
when some token's delivery fails with an invalid-token error class, the
notification record is still persisted and every registered token is
attempted — but instead of removing the failed token, `sendNotification`
throws and the recipient's token set is completely unchanged (the
invalid-token branch crashes on `db.FieldValue` being `undefined`).  This
theorem evaluates the code at the claim's failing scenario. -/
theorem sendNotification_invalidToken_throws (gw : String → PushResult) (db : DB)
    (a : NotifyArgs) (now : Nat) (userData : User)
    (hfind : findUser db a.userId = some userData)
    (htok : userData.fcmTokens ≠ [])
    (hbad : userData.fcmTokens.any (fun t => isInvalidTokenError (gw t)) = true) :
    (sendNotification gw db a now).db.notifications =
      db.notifications ++
        [{ notificationId := db.nextId, userId := a.userId, type := a.type,
           actorId := a.actorId, actorName := a.actorName, message := a.message,
           data := a.data, read := false, createdAt := now }] ∧
    (sendNotification gw db a now).attempts.map Prod.fst = userData.fcmTokens ∧
    (sendNotification gw db a now).threw = true ∧
    findUser (sendNotification gw db a now).db a.userId = some userData ∧
    (sendNotification gw db a now).db.users = db.users := by
  have hne : userData.fcmTokens.isEmpty = false := by
    cases hl : userData.fcmTokens
    · exact absurd hl htok
    · rfl
  have hred : sendNotification gw db a now =
      { db :=
          { db with
            notifications := db.notifications ++
              [{ notificationId := db.nextId, userId := a.userId, type := a.type,
                 actorId := a.actorId, actorName := a.actorName, message := a.message,
                 data := a.data, read := false, createdAt := now }]
            nextId := db.nextId + 1 }
        attempts := userData.fcmTokens.map (fun t => (t, gw t))
        threw := true } := by
    simp only [sendNotification]
    rw [show findUser
        { db with
          notifications := db.notifications ++
            [{ notificationId := db.nextId, userId := a.userId, type := a.type,
               actorId := a.actorId, actorName := a.actorName, message := a.message,
               data := a.data, read := false, createdAt := now }]
          nextId := db.nextId + 1 } a.userId = some userData from hfind]
    simp only [hne, Bool.false_eq_true, if_false, hbad, if_true]
  rw [hred]
  refine ⟨rfl, ?_, rfl, hfind, rfl⟩
  simp [List.map_map, Function.comp_def]

/-- A gateway where token 2 is permanently invalid and token 3 fails
transiently — the fan-out isolation scenario. -/
def gwMixed : String → PushResult := fun t =>
  if t = "tok2" then PushResult.invalidRegistrationToken
  else if t = "tok3" then PushResult.otherError
  else PushResult.ok

/-- A recipient with three registered tokens. -/
def sampleUserCarol : User :=
  { uid := "carol", name := "Carol", fcmTokens := ["tok1", "tok2", "tok3"],
    following := [], followers := [] }

/-- A store holding only Carol. -/
def sampleDB3 : DB :=
  { users := [sampleUserCarol], chats := [], messages := [],
    notifications := [], follows := [], nextId := 0 }

/-- The arguments of a sample dispatch to Carol. -/
def sampleNotifyArgs : NotifyArgs :=
  { userId := "carol", type := "message", actorId := "alice",
    actorName := "Alice", message := "Alice: hi", data := [] }

/-- Witness for C3's failing input, the spec's 3-token scenario: the record
is persisted and all three tokens are attempted, but the call throws and
Carol's token set — tok2 included — is exactly as before: nothing was
pruned. -/
theorem sendNotification_invalidToken_throws_witness :
    findUser sampleDB3 "carol" = some sampleUserCarol ∧
    sampleUserCarol.fcmTokens ≠ [] ∧
    sampleUserCarol.fcmTokens.any (fun t => isInvalidTokenError (gwMixed t)) = true ∧
    (sendNotification gwMixed sampleDB3 sampleNotifyArgs 4).db.notifications =
      sampleDB3.notifications ++
        [{ notificationId := 0, userId := "carol", type := "message",
           actorId := "alice", actorName := "Alice", message := "Alice: hi",
           data := [], read := false, createdAt := 4 }] ∧
    (sendNotification gwMixed sampleDB3 sampleNotifyArgs 4).attempts.map Prod.fst =
      ["tok1", "tok2", "tok3"] ∧
    (sendNotification gwMixed sampleDB3 sampleNotifyArgs 4).threw = true ∧
    findUser (sendNotification gwMixed sampleDB3 sampleNotifyArgs 4).db "carol" =
      some sampleUserCarol := by
  have h := sendNotification_invalidToken_throws gwMixed sampleDB3 sampleNotifyArgs 4
    sampleUserCarol (by decide) (by decide) (by decide)
  refine ⟨by decide, by decide, by decide, h.1, ?_, h.2.2.1, ?_⟩
  · rw [h.2.1]; decide
  · show findUser (sendNotification gwMixed sampleDB3 sampleNotifyArgs 4).db
        sampleNotifyArgs.userId = some sampleUserCarol
    exact h.2.2.2.1

/-! ### Claim C4: dispatch failures and the primary mutation -/

/-- C4 counterexample: with a failing dispatcher, `POST /api/users/follow`
commits the follow transaction but answers 500 — the `await
sendNotification(...)` there is not wrapped in try/catch, so a dispatch
failure does fail the operation for the caller, contradicting the claim
that every such mutation still returns success. -/
theorem followDispatchFailure_counterexample :
    (followHandler notifyFailing sampleDB0 "alice" "bob" 5).2 =
      .err 500 "Failed to follow user" ∧
    { followId := "alice_bob", followerId := "alice", followingId := "bob",
      createdAt := 5 } ∈ (followHandler notifyFailing sampleDB0 "alice" "bob" 5).1.follows ∧
    findUser (followHandler notifyFailing sampleDB0 "alice" "bob" 5).1 "alice" =
      some { sampleUserA with following := ["bob"] } := by
  decide

/-- C4 (amended): a dispatcher failure never rolls back a committed
primary mutation, but only send-message shields its success path with
try/catch.  For any always-failing dispatcher: send-message keeps its
transaction's effects and still answers 201, while follow keeps its
transaction's effects and answers a 500 error. -/
theorem dispatchFailure_isolation (notify : NotifyFn) (db : DB)
    (uid chatId text mediaUrl type_ : String) (now : Nat)
    (chatData : Chat) (other : String)
    (currentUserId userId : String) (targetUser currentUser : User)
    (hfailAll : ∀ d a, notify d a = Except.error ())
    (hfind : findChat db chatId = some chatData)
    (hpart : uid ∈ chatData.participants)
    (hother : chatData.participants.find? (fun id => decide (id ≠ uid)) = some other)
    (hvalid1 : ¬(type_ = "text" ∧ (text = "" ∨ jsTrim text = "")))
    (hvalid2 : ¬(type_ = "image" ∧ mediaUrl = ""))
    (hne : currentUserId ≠ userId)
    (htarget : findUser db userId = some targetUser)
    (hcur : findUser db currentUserId = some currentUser)
    (hnotyet : userId ∉ currentUser.following) :
    sendMessageHandler notify db uid chatId text mediaUrl type_ now =
      (sendMessageTxn db chatData (newMessageData db uid chatId text mediaUrl type_ now) other,
       .ok 201 (newMessageData db uid chatId text mediaUrl type_ now)) ∧
    followHandler notify db currentUserId userId now =
      ({ db with
         users := db.users.map (fun u =>
           if u.uid = currentUserId then
             { u with following := currentUser.following ++ [userId] }
           else if u.uid = userId then
             { u with followers := targetUser.followers ++ [currentUserId] }
           else u)
         follows := setFollowDoc db.follows
           { followId := currentUserId ++ "_" ++ userId
             followerId := currentUserId
             followingId := userId
             createdAt := now } },
       .err 500 "Failed to follow user") ∧
    { followId := currentUserId ++ "_" ++ userId
      followerId := currentUserId
      followingId := userId
      createdAt := now } ∈ (followHandler notify db currentUserId userId now).1.follows := by
  have hnotify : notify = fun _ _ => Except.error () :=
    funext fun d => funext fun a => hfailAll d a
  subst hnotify
  have hsend : sendMessageHandler (fun _ _ => Except.error ()) db uid chatId text mediaUrl type_ now =
      (sendMessageTxn db chatData (newMessageData db uid chatId text mediaUrl type_ now) other,
       .ok 201 (newMessageData db uid chatId text mediaUrl type_ now)) := by
    simp only [sendMessageHandler, if_neg hvalid1, if_neg hvalid2, hfind, if_pos hpart,
      hother, Option.getD_some]
    cases findUser
        (sendMessageTxn db chatData (newMessageData db uid chatId text mediaUrl type_ now) other)
        uid with
    | none => rfl
    | some senderData => rfl
  have hfollow : followHandler (fun _ _ => Except.error ()) db currentUserId userId now =
      ({ db with
         users := db.users.map (fun u =>
           if u.uid = currentUserId then
             { u with following := currentUser.following ++ [userId] }
           else if u.uid = userId then
             { u with followers := targetUser.followers ++ [currentUserId] }
           else u)
         follows := setFollowDoc db.follows
           { followId := currentUserId ++ "_" ++ userId
             followerId := currentUserId
             followingId := userId
             createdAt := now } },
       .err 500 "Failed to follow user") := by
    simp only [followHandler, if_neg hne, htarget, hcur, if_neg hnotyet]
  refine ⟨hsend, hfollow, ?_⟩
  rw [hfollow]
  show _ ∈ setFollowDoc db.follows _
  unfold setFollowDoc
  exact List.mem_append_right _ (List.mem_singleton.mpr rfl)

/-- Witness for the amended C4 at concrete inputs: Alice sends "hi"
(dispatch fails, response still 201) and Alice follows Bob (dispatch fails,
edge committed, response 500). -/
theorem dispatchFailure_isolation_witness :
    (∀ d a, notifyFailing d a = Except.error ()) ∧
    findChat sampleDB1 "alice_bob" = some sampleChatAB ∧
    (sendMessageHandler notifyFailing sampleDB1 "alice" "alice_bob" "hi" "" "text" 10).2 =
      .ok 201 (newMessageData sampleDB1 "alice" "alice_bob" "hi" "" "text" 10) ∧
    (followHandler notifyFailing sampleDB1 "alice" "bob" 10).2 =
      .err 500 "Failed to follow user" ∧
    { followId := "alice_bob", followerId := "alice", followingId := "bob",
      createdAt := 10 } ∈ (followHandler notifyFailing sampleDB1 "alice" "bob" 10).1.follows := by
  have h := dispatchFailure_isolation notifyFailing sampleDB1
    "alice" "alice_bob" "hi" "" "text" 10 sampleChatAB "bob" "alice" "bob"
    sampleUserB sampleUserA
    (fun _ _ => rfl) (by decide) (by decide) (by decide) (by decide) (by decide)
    (by decide) (by decide) (by decide) (by decide)
  exact ⟨fun _ _ => rfl, by decide, by rw [h.1], by rw [h.2.1], h.2.2⟩

/-! ### Claim C5: send-message preconditions -/

/-- C5 counterexample: a caller who is not a participant but whose request
has empty text receives InvalidInput (400), not Forbidden (403) — input
validation runs before the chat is even loaded, so "Forbidden for every
non-participant caller" is false as stated. -/
theorem sendValidationOrder_counterexample :
    findChat sampleDB1 "alice_bob" = some sampleChatAB ∧
    "carol" ∉ sampleChatAB.participants ∧
    (sendMessageHandler (notifyVia gwAllOk 9) sampleDB1
        "carol" "alice_bob" "" "" "text" 9).2 =
      .err 400 "Message text is required" := by
  decide

/-- C5 (amended): input validation runs first — kind=text with empty or
whitespace-only text, and kind=image with no media URL, always answer
InvalidInput (400); a request that passes validation but whose caller is
not a participant of the (existing) chat answers Forbidden (403); and a
success (2xx with a created message) is only ever returned when the input
is valid and the caller is a participant. -/
theorem sendMessage_preconditions (notify : NotifyFn) (db : DB)
    (uid chatId text mediaUrl type_ : String) (now : Nat) :
    (type_ = "text" → (text = "" ∨ jsTrim text = "") →
      (sendMessageHandler notify db uid chatId text mediaUrl type_ now).2 =
        .err 400 "Message text is required") ∧
    (type_ = "image" → mediaUrl = "" →
      (sendMessageHandler notify db uid chatId text mediaUrl type_ now).2 =
        .err 400 "Media URL is required for image messages") ∧
    (∀ chatData, ¬(type_ = "text" ∧ (text = "" ∨ jsTrim text = "")) →
      ¬(type_ = "image" ∧ mediaUrl = "") →
      findChat db chatId = some chatData →
      uid ∉ chatData.participants →
      (sendMessageHandler notify db uid chatId text mediaUrl type_ now).2 =
        .err 403 "Not authorized to send messages in this chat") ∧
    (∀ s m, (sendMessageHandler notify db uid chatId text mediaUrl type_ now).2 =
        .ok s m →
      ¬(type_ = "text" ∧ (text = "" ∨ jsTrim text = "")) ∧
      ¬(type_ = "image" ∧ mediaUrl = "") ∧
      (findChat db chatId).map (fun c => decide (uid ∈ c.participants)) = some true) := by
  refine ⟨?_, ?_, ?_, ?_⟩
  · intro h1 h2
    simp only [sendMessageHandler, if_pos (And.intro h1 h2)]
  · intro h1 h2
    have hA : ¬(type_ = "text" ∧ (text = "" ∨ jsTrim text = "")) := by
      rintro ⟨ht, _⟩
      rw [h1] at ht
      exact absurd ht (by decide)
    simp only [sendMessageHandler, if_neg hA, if_pos (And.intro h1 h2)]
  · intro chatData hA hB hfc hp
    simp only [sendMessageHandler, if_neg hA, if_neg hB, hfc, if_neg hp]
  · intro s m hresp
    by_cases hA : type_ = "text" ∧ (text = "" ∨ jsTrim text = "")
    · simp only [sendMessageHandler, if_pos hA] at hresp
      exact absurd hresp (by simp)
    by_cases hB : type_ = "image" ∧ mediaUrl = ""
    · simp only [sendMessageHandler, if_neg hA, if_pos hB] at hresp
      exact absurd hresp (by simp)
    cases hfc : findChat db chatId with
    | none =>
      simp only [sendMessageHandler, if_neg hA, if_neg hB, hfc] at hresp
      exact absurd hresp (by simp)
    | some c =>
      by_cases hp : uid ∈ c.participants
      · exact ⟨hA, hB, by simp [hfc, hp]⟩
      · simp only [sendMessageHandler, if_neg hA, if_neg hB, hfc, if_neg hp] at hresp
        exact absurd hresp (by simp)

/-- Witness for the amended C5: empty text answers 400 even for
non-participant Carol, and a valid-input request by Carol answers 403. -/
theorem sendMessage_preconditions_witness :
    (("text" : String) = "text") ∧
    (("" : String) = "" ∨ jsTrim "" = "") ∧
    (sendMessageHandler (notifyVia gwAllOk 9) sampleDB1
        "carol" "alice_bob" "" "" "text" 9).2 =
      .err 400 "Message text is required" ∧
    findChat sampleDB1 "alice_bob" = some sampleChatAB ∧
    "carol" ∉ sampleChatAB.participants ∧
    (sendMessageHandler (notifyVia gwAllOk 9) sampleDB1
        "carol" "alice_bob" "hello" "" "text" 9).2 =
      .err 403 "Not authorized to send messages in this chat" := by
  have h1 := (sendMessage_preconditions (notifyVia gwAllOk 9) sampleDB1
    "carol" "alice_bob" "" "" "text" 9).1 rfl (Or.inl rfl)
  have h3 := (sendMessage_preconditions (notifyVia gwAllOk 9) sampleDB1
    "carol" "alice_bob" "hello" "" "text" 9).2.2.1 sampleChatAB
    (by decide) (by decide) (by decide) (by decide)
  exact ⟨rfl, Or.inl rfl, h1, by decide, by decide, h3⟩

/-! ### Claim C9: concurrent sends and the unread counter -/

/-- C9 counterexample: both participants send concurrently (each
transaction's unread map computed from the chat snapshot read before
either commit, exactly as the code does — the handler reads the chat with
a plain get outside the transaction).  Alice's send first sets Bob's
counter to 1; Bob's committed write then puts Bob's counter back to 0,
losing Alice's increment — the update is a read-then-overwrite of an
absolute map, not a relative increment. -/
theorem concurrentSends_counterexample :
    (findChat (sendMessageTxn sampleDB1 sampleChatAB
        (newMessageData sampleDB1 "alice" "alice_bob" "hi" "" "text" 10) "bob")
        "alice_bob").map (fun c => getCount c.unreadCount "bob") = some 1 ∧
    (findChat (sendMessageTxn
        (sendMessageTxn sampleDB1 sampleChatAB
          (newMessageData sampleDB1 "alice" "alice_bob" "hi" "" "text" 10) "bob")
        sampleChatAB
        (newMessageData
          (sendMessageTxn sampleDB1 sampleChatAB
            (newMessageData sampleDB1 "alice" "alice_bob" "hi" "" "text" 10) "bob")
          "bob" "alice_bob" "yo" "" "text" 11) "alice")
        "alice_bob").map (fun c => getCount c.unreadCount "bob") = some 0 := by
  decide

/-- C9 (amended): two concurrent sends by the two participants are NOT both
applied to the unread counters.  Each transaction writes the whole unread
map computed from the chat snapshot read before the transaction (the code
performs no read inside `runTransaction`, so conflict detection/retry has
nothing to re-read); the second commit therefore overwrites the first
send's increment with the stale snapshot value: after Alice's then Bob's
concurrent sends, Alice's counter is incremented but Bob's counter is back
at its snapshot value, and both message appends survive. -/
theorem concurrentSends_clobber (db : DB) (chatId : String) (c0 : Chat)
    (a b textA textB : String) (nowA nowB : Nat)
    (hfind : findChat db chatId = some c0)
    (hab : a ≠ b) :
    (findChat (sendMessageTxn db c0 (newMessageData db a chatId textA "" "text" nowA) b)
        chatId).map (fun c => getCount c.unreadCount b) =
      some (getCount c0.unreadCount b + 1) ∧
    (findChat (sendMessageTxn
        (sendMessageTxn db c0 (newMessageData db a chatId textA "" "text" nowA) b) c0
        (newMessageData
          (sendMessageTxn db c0 (newMessageData db a chatId textA "" "text" nowA) b)
          b chatId textB "" "text" nowB) a)
        chatId).map (fun c => getCount c.unreadCount b) =
      some (getCount c0.unreadCount b) ∧
    (findChat (sendMessageTxn
        (sendMessageTxn db c0 (newMessageData db a chatId textA "" "text" nowA) b) c0
        (newMessageData
          (sendMessageTxn db c0 (newMessageData db a chatId textA "" "text" nowA) b)
          b chatId textB "" "text" nowB) a)
        chatId).map (fun c => getCount c.unreadCount a) =
      some (getCount c0.unreadCount a + 1) ∧
    (sendMessageTxn
        (sendMessageTxn db c0 (newMessageData db a chatId textA "" "text" nowA) b) c0
        (newMessageData
          (sendMessageTxn db c0 (newMessageData db a chatId textA "" "text" nowA) b)
          b chatId textB "" "text" nowB) a).messages =
      db.messages ++
        [newMessageData db a chatId textA "" "text" nowA,
         newMessageData
          (sendMessageTxn db c0 (newMessageData db a chatId textA "" "text" nowA) b)
          b chatId textB "" "text" nowB] := by
  have hchatId : c0.chatId = chatId := by
    have h1 : db.chats.find? (fun c => decide (c.chatId = chatId)) = some c0 := hfind
    simpa using List.find?_some h1
  have hpres : ∀ (m : Message) (other : String) (cd : Chat) (x : Chat),
      (fun c => decide (c.chatId = chatId))
        (if x.chatId = m.chatId then
          { x with
            lastMessage :=
              { text := if m.type = "text" then m.text else "Sent an image"
                senderId := m.senderId
                type := m.type }
            lastMessageAt := m.createdAt
            unreadCount :=
              setCount cd.unreadCount other (getCount cd.unreadCount other + 1) }
        else x) =
      (fun c => decide (c.chatId = chatId)) x := by
    intro m other cd x
    by_cases h : x.chatId = m.chatId <;> simp [h]
  have hfind1 : findChat (sendMessageTxn db c0
      (newMessageData db a chatId textA "" "text" nowA) b) chatId =
      some { c0 with
             lastMessage :=
               { text := if ("text" : String) = "text" then textA else "Sent an image"
                 senderId := a
                 type := "text" }
             lastMessageAt := nowA
             unreadCount := setCount c0.unreadCount b (getCount c0.unreadCount b + 1) } := by
    show (db.chats.map _).find? _ = _
    rw [find?_map_of_pres _ _ (hpres _ b c0)]
    rw [show db.chats.find? (fun c => decide (c.chatId = chatId)) = some c0 from hfind]
    simp [newMessageData, hchatId]
  have hfind2 : findChat (sendMessageTxn
      (sendMessageTxn db c0 (newMessageData db a chatId textA "" "text" nowA) b) c0
      (newMessageData
        (sendMessageTxn db c0 (newMessageData db a chatId textA "" "text" nowA) b)
        b chatId textB "" "text" nowB) a)
      chatId =
      some { c0 with
             lastMessage :=
               { text := if ("text" : String) = "text" then textB else "Sent an image"
                 senderId := b
                 type := "text" }
             lastMessageAt := nowB
             unreadCount := setCount c0.unreadCount a (getCount c0.unreadCount a + 1) } := by
    show ((sendMessageTxn db c0 (newMessageData db a chatId textA "" "text" nowA) b).chats.map _).find? _ = _
    rw [find?_map_of_pres _ _ (hpres _ a c0)]
    rw [show (sendMessageTxn db c0 (newMessageData db a chatId textA "" "text" nowA) b).chats.find?
        (fun c => decide (c.chatId = chatId)) =
        some { c0 with
               lastMessage :=
                 { text := if ("text" : String) = "text" then textA else "Sent an image"
                   senderId := a
                   type := "text" }
               lastMessageAt := nowA
               unreadCount := setCount c0.unreadCount b (getCount c0.unreadCount b + 1) }
      from hfind1]
    simp [newMessageData, hchatId]
  refine ⟨?_, ?_, ?_, ?_⟩
  · rw [hfind1]
    simp [getCount_setCount_self]
  · rw [hfind2]
    simp [getCount_setCount_ne _ _ _ _ (Ne.symm hab)]
  · rw [hfind2]
    simp [getCount_setCount_self]
  · show ((db.messages ++ _) ++ _) = _
    simp [List.append_assoc]

/-- Witness for the amended C9 at the concrete store: Bob's counter reads 1
after Alice's commit and is back to its snapshot value 0 after Bob's
stale-snapshot commit. -/
theorem concurrentSends_clobber_witness :
    findChat sampleDB1 "alice_bob" = some sampleChatAB ∧
    ("alice" : String) ≠ "bob" ∧
    (findChat (sendMessageTxn sampleDB1 sampleChatAB
        (newMessageData sampleDB1 "alice" "alice_bob" "hi" "" "text" 10) "bob")
        "alice_bob").map (fun c => getCount c.unreadCount "bob") =
      some (getCount sampleChatAB.unreadCount "bob" + 1) ∧
    (findChat (sendMessageTxn
        (sendMessageTxn sampleDB1 sampleChatAB
          (newMessageData sampleDB1 "alice" "alice_bob" "hi" "" "text" 10) "bob")
        sampleChatAB
        (newMessageData
          (sendMessageTxn sampleDB1 sampleChatAB
            (newMessageData sampleDB1 "alice" "alice_bob" "hi" "" "text" 10) "bob")
          "bob" "alice_bob" "yo" "" "text" 11) "alice")
        "alice_bob").map (fun c => getCount c.unreadCount "bob") =
      some (getCount sampleChatAB.unreadCount "bob") := by
  have h := concurrentSends_clobber sampleDB1 "alice_bob" sampleChatAB
    "alice" "bob" "hi" "yo" 10 11 (by decide) (by decide)
  exact ⟨by decide, by decide, h.1, h.2.1⟩

/-- Anything on a returned message page is a message of the store. -/
theorem mem_of_mem_messagesPageDocs (db : DB) (chatId : String) (limit : Nat)
    (lastId : Option Nat) (p : Message)
    (hp : p ∈ messagesPageDocs db chatId limit lastId) : p ∈ db.messages := by
  cases lastId with
  | none =>
    simp only [messagesPageDocs] at hp
    have h1 := List.take_subset _ _ hp
    rw [mem_sortDescBy] at h1
    exact List.filter_subset' _ h1
  | some lid =>
    cases hf : db.messages.find? (fun (m : Message) => decide (m.messageId = lid)) with
    | none =>
      simp only [messagesPageDocs, hf] at hp
      have h1 := List.take_subset _ _ hp
      rw [mem_sortDescBy] at h1
      exact List.filter_subset' _ h1
    | some lastDoc =>
      simp only [messagesPageDocs, hf] at hp
      have h1 := List.take_subset _ _ hp
      have h2 := List.filter_subset' _ h1
      rw [mem_sortDescBy] at h2
      exact List.filter_subset' _ h2

/-! ### Claim C7: `hasMore` and cursor semantics of the list operations -/

/-- C7: for both paginated list operations, the returned page never exceeds
`pageSize`, so the code's `length ≥ pageSize` test for `hasMore` is true
exactly when the page is exactly `pageSize` long; and an absent or
non-existent cursor id starts the query from the most recent item — a
non-existent id gives literally the same result as no cursor, with a
success response either way. -/
theorem pagination_hasMore_cursor (db : DB) (uid chatId userId : String)
    (limit : Nat) (chatData : Chat) (lid nlid : Nat)
    (hfind : findChat db chatId = some chatData)
    (hpart : uid ∈ chatData.participants)
    (hnomsg : db.messages.find? (fun (m : Message) => decide (m.messageId = lid)) = none)
    (hnonotif : db.notifications.find?
      (fun (n : Notif) => decide (n.notificationId = nlid)) = none) :
    (∀ lastId, (getMessagesHandler db uid chatId limit lastId).2 =
      .ok 200
        { messages := messagesPageDocs db chatId limit lastId
          lastId := (messagesPageDocs db chatId limit lastId).getLast?.map
            (fun m => m.messageId)
          hasMore := decide (limit ≤ (messagesPageDocs db chatId limit lastId).length) }) ∧
    (∀ lastId, decide (limit ≤ (messagesPageDocs db chatId limit lastId).length) = true ↔
      (messagesPageDocs db chatId limit lastId).length = limit) ∧
    messagesPageDocs db chatId limit (some lid) = messagesPageDocs db chatId limit none ∧
    getMessagesHandler db uid chatId limit (some lid) =
      getMessagesHandler db uid chatId limit none ∧
    (∀ lastId, (getUserNotifications db userId limit lastId).hasMore = true ↔
      (getUserNotifications db userId limit lastId).notifications.length = limit) ∧
    getUserNotifications db userId limit (some nlid) =
      getUserNotifications db userId limit none := by
  have hmsgcursor : messagesPageDocs db chatId limit (some lid) =
      messagesPageDocs db chatId limit none := by
    simp only [messagesPageDocs, hnomsg]
  refine ⟨?_, ?_, hmsgcursor, ?_, ?_, ?_⟩
  · intro lastId
    simp only [getMessagesHandler, hfind, if_pos hpart]
  · intro lastId
    have hle : (messagesPageDocs db chatId limit lastId).length ≤ limit := by
      unfold messagesPageDocs
      exact List.length_take_le _ _
    constructor
    · intro h
      have := of_decide_eq_true h
      omega
    · intro h
      exact decide_eq_true (by omega)
  · have hflip : flippedIdsOf db uid chatId limit (some lid) =
        flippedIdsOf db uid chatId limit none := by
      simp only [flippedIdsOf, hmsgcursor]
    simp only [getMessagesHandler, hfind, if_pos hpart, hmsgcursor, hflip]
  · intro lastId
    have hle : (getUserNotifications db userId limit lastId).notifications.length ≤ limit := by
      simp only [getUserNotifications]
      exact List.length_take_le _ _
    constructor
    · intro h
      have h2 : decide (limit ≤ (getUserNotifications db userId limit lastId).notifications.length) = true := by
        simp only [getUserNotifications] at h ⊢
        exact h
      have := of_decide_eq_true h2
      omega
    · intro h
      simp only [getUserNotifications] at h ⊢
      exact decide_eq_true (by omega)
  · simp only [getUserNotifications, hnonotif]

/-- Three already-read messages for the pagination witness. -/
def sampleMsgs3 : List Message :=
  [{ messageId := 0, chatId := "alice_bob", senderId := "alice", text := "one",
     mediaUrl := "", type := "text", read := true, createdAt := 1 },
   { messageId := 1, chatId := "alice_bob", senderId := "bob", text := "two",
     mediaUrl := "", type := "text", read := true, createdAt := 2 },
   { messageId := 2, chatId := "alice_bob", senderId := "alice", text := "three",
     mediaUrl := "", type := "text", read := true, createdAt := 3 }]

/-- A store with three chat messages and one notification, for pagination. -/
def sampleDB4 : DB :=
  { users := [sampleUserA, sampleUserB], chats := [sampleChatAB],
    messages := sampleMsgs3,
    notifications :=
      [{ notificationId := 3, userId := "carol", type := "like",
         actorId := "alice", actorName := "Alice", message := "m",
         data := [], read := false, createdAt := 1 }],
    follows := [], nextId := 4 }

/-- Witness for C7: with pageSize 2 over three messages the page is exactly
2 long (so `hasMore` is true exactly then), and the non-existent cursor id
99 behaves identically to no cursor for both list operations. -/
theorem pagination_hasMore_cursor_witness :
    findChat sampleDB4 "alice_bob" = some sampleChatAB ∧
    "alice" ∈ sampleChatAB.participants ∧
    sampleDB4.messages.find? (fun (m : Message) => decide (m.messageId = 99)) = none ∧
    sampleDB4.notifications.find?
      (fun (n : Notif) => decide (n.notificationId = 99)) = none ∧
    (decide (2 ≤ (messagesPageDocs sampleDB4 "alice_bob" 2 none).length) = true ↔
      (messagesPageDocs sampleDB4 "alice_bob" 2 none).length = 2) ∧
    (messagesPageDocs sampleDB4 "alice_bob" 2 none).length = 2 ∧
    getMessagesHandler sampleDB4 "alice" "alice_bob" 2 (some 99) =
      getMessagesHandler sampleDB4 "alice" "alice_bob" 2 none ∧
    getUserNotifications sampleDB4 "carol" 2 (some 99) =
      getUserNotifications sampleDB4 "carol" 2 none := by
  have h := pagination_hasMore_cursor sampleDB4 "alice" "alice_bob" "carol" 2
    sampleChatAB 99 99 (by decide) (by decide) (by decide) (by decide)
  exact ⟨by decide, by decide, by decide, by decide, h.2.1 none, by decide,
    h.2.2.2.1, h.2.2.2.2.2⟩

/-! ### Claim C6: read-acknowledgement-on-view -/

/-- C6: listing messages flips exactly the page's unread messages not sent
by the caller, decrements the caller's counter by exactly the number of
messages flipped in this call (floored at zero via `Math.max`), and leaves
the caller's own messages and all messages outside the returned page
unchanged.  Doc ids are unique in the store (`hnodup`), as the backing
database guarantees. -/
theorem listMessages_readAck (db : DB) (uid chatId : String) (limit : Nat)
    (lastId : Option Nat) (chatData : Chat)
    (hfind : findChat db chatId = some chatData)
    (hpart : uid ∈ chatData.participants)
    (hnodup : (db.messages.map (fun m => m.messageId)).Nodup) :
    (getMessagesHandler db uid chatId limit lastId).2 =
      .ok 200
        { messages := messagesPageDocs db chatId limit lastId
          lastId := (messagesPageDocs db chatId limit lastId).getLast?.map
            (fun m => m.messageId)
          hasMore := decide (limit ≤ (messagesPageDocs db chatId limit lastId).length) } ∧
    (∀ m ∈ messagesPageDocs db chatId limit lastId, m.senderId ≠ uid → m.read = false →
      ∀ m' ∈ (getMessagesHandler db uid chatId limit lastId).1.messages,
        m'.messageId = m.messageId → m'.read = true) ∧
    ((getMessagesHandler db uid chatId limit lastId).1.chats.find?
        (fun c => decide (c.chatId = chatId))).map (fun c => getCount c.unreadCount uid) =
      some (Nat.max 0 (getCount chatData.unreadCount uid -
        (flippedIdsOf db uid chatId limit lastId).length)) ∧
    (∀ m ∈ db.messages, m.senderId = uid →
      m ∈ (getMessagesHandler db uid chatId limit lastId).1.messages) ∧
    (∀ m ∈ db.messages,
      (∀ p ∈ messagesPageDocs db chatId limit lastId, p.messageId ≠ m.messageId) →
      m ∈ (getMessagesHandler db uid chatId limit lastId).1.messages) := by
  have hchatId : chatData.chatId = chatId := by
    have h1 : db.chats.find? (fun c => decide (c.chatId = chatId)) = some chatData := hfind
    simpa using List.find?_some h1
  have hmsgs : (getMessagesHandler db uid chatId limit lastId).1.messages =
      db.messages.map (fun m =>
        if m.messageId ∈ flippedIdsOf db uid chatId limit lastId then
          { m with read := true }
        else m) := by
    simp only [getMessagesHandler, hfind, if_pos hpart]
  have hchats : (getMessagesHandler db uid chatId limit lastId).1.chats =
      if 0 < (flippedIdsOf db uid chatId limit lastId).length then
        db.chats.map (fun c =>
          if c.chatId = chatId then
            { c with unreadCount := setCount chatData.unreadCount uid (Nat.max 0
                (getCount chatData.unreadCount uid -
                  (flippedIdsOf db uid chatId limit lastId).length)) }
          else c)
      else db.chats := by
    simp only [getMessagesHandler, hfind, if_pos hpart]
  refine ⟨?_, ?_, ?_, ?_, ?_⟩
  · simp only [getMessagesHandler, hfind, if_pos hpart]
  · intro m hm hsender hread m' hm' hid
    have hmId : m.messageId ∈ flippedIdsOf db uid chatId limit lastId := by
      unfold flippedIdsOf
      refine List.mem_map_of_mem _ (List.mem_filter.mpr ⟨hm, ?_⟩)
      simp [hsender, hread]
    rw [hmsgs] at hm'
    rw [List.mem_map] at hm'
    obtain ⟨m0, hm0, rfl⟩ := hm'
    by_cases hin : m0.messageId ∈ flippedIdsOf db uid chatId limit lastId
    · simp [hin]
    · rw [if_neg hin]
      rw [if_neg hin] at hid
      exact absurd (hid ▸ hmId) hin
  · rw [hchats]
    by_cases hk : 0 < (flippedIdsOf db uid chatId limit lastId).length
    · rw [if_pos hk]
      show ((db.chats.map _).find? _).map _ = _
      rw [find?_map_of_pres]
      · rw [show db.chats.find? (fun c => decide (c.chatId = chatId)) = some chatData from hfind]
        simp [hchatId, getCount_setCount_self]
      · intro a
        by_cases h : a.chatId = chatId <;> simp [h]
    · rw [if_neg hk]
      rw [show db.chats.find? (fun c => decide (c.chatId = chatId)) = some chatData from hfind]
      have hk0 : (flippedIdsOf db uid chatId limit lastId).length = 0 :=
        Nat.eq_zero_of_not_pos hk
      simp [hk0]
  · intro m hm hsender
    have hnot : m.messageId ∉ flippedIdsOf db uid chatId limit lastId := by
      intro hin
      unfold flippedIdsOf at hin
      rw [List.mem_map] at hin
      obtain ⟨p, hpf, hpid⟩ := hin
      rw [List.mem_filter] at hpf
      obtain ⟨hpdocs, hpcond⟩ := hpf
      have hpsender : p.senderId ≠ uid := by
        simp only [Bool.and_eq_true, decide_eq_true_eq] at hpcond
        exact hpcond.1
      have hpmem := mem_of_mem_messagesPageDocs db chatId limit lastId p hpdocs
      have : p = m := List.inj_on_of_nodup_map hnodup hpmem hm hpid
      exact hpsender (this ▸ hsender)
    rw [hmsgs]
    have : (if m.messageId ∈ flippedIdsOf db uid chatId limit lastId then
        { m with read := true } else m) = m := if_neg hnot
    exact this ▸ List.mem_map_of_mem _ hm
  · intro m hm hout
    have hnot : m.messageId ∉ flippedIdsOf db uid chatId limit lastId := by
      intro hin
      unfold flippedIdsOf at hin
      rw [List.mem_map] at hin
      obtain ⟨p, hpf, hpid⟩ := hin
      rw [List.mem_filter] at hpf
      exact hout p hpf.1 hpid
    rw [hmsgs]
    have : (if m.messageId ∈ flippedIdsOf db uid chatId limit lastId then
        { m with read := true } else m) = m := if_neg hnot
    exact this ▸ List.mem_map_of_mem _ hm

/-- Witness for C6: Alice lists the chat holding one unread message from
Bob; that message is the one flipped and her counter drops from 1 to 0. -/
theorem listMessages_readAck_witness :
    findChat sampleDB2 "alice_bob" = some sampleChatAB1 ∧
    "alice" ∈ sampleChatAB1.participants ∧
    (sampleDB2.messages.map (fun m => m.messageId)).Nodup ∧
    (flippedIdsOf sampleDB2 "alice" "alice_bob" 20 none).length = 1 ∧
    (getMessagesHandler sampleDB2 "alice" "alice_bob" 20 none).2 =
      .ok 200
        { messages := messagesPageDocs sampleDB2 "alice_bob" 20 none
          lastId := (messagesPageDocs sampleDB2 "alice_bob" 20 none).getLast?.map
            (fun m => m.messageId)
          hasMore := decide (20 ≤ (messagesPageDocs sampleDB2 "alice_bob" 20 none).length) } ∧
    ((getMessagesHandler sampleDB2 "alice" "alice_bob" 20 none).1.chats.find?
        (fun c => decide (c.chatId = "alice_bob"))).map
      (fun c => getCount c.unreadCount "alice") = some 0 := by
  have h := listMessages_readAck sampleDB2 "alice" "alice_bob" 20 none sampleChatAB1
    (by decide) (by decide) (by decide)
  exact ⟨by decide, by decide, by decide, by decide, h.1, h.2.2.1.trans (by decide)⟩
/-! ### The unread-counter invariant used by C2: established and preserved -/

/-- The invariant hypothesis of `markChatRead_resets` holds for a freshly
created chat: both participants' counters are zero and the chat has no
messages yet. -/
theorem createChat_establishes_inv (db : DB) (uid otherUserId : String) (now : Nat)
    (u : String) (hu : u = uid ∨ u = otherUserId)
    (hnomsgs : db.messages.filter (fun m =>
      decide (m.chatId = (newChatData uid otherUserId now).chatId)) = []) :
    getCount (newChatData uid otherUserId now).unreadCount u =
      (db.messages.filter (fun m =>
        decide (m.chatId = (newChatData uid otherUserId now).chatId) &&
        decide (m.senderId ≠ u) && !m.read)).length := by
  have hzero : ∀ w, w = uid ∨ w = otherUserId →
      getCount (setCount (setCount [] uid 0) otherUserId 0) w = 0 := by
    intro w hw
    by_cases h : uid = otherUserId
    · subst h
      rcases hw with rfl | rfl <;> simp [setCount, getCount]
    · rcases hw with rfl | rfl <;> simp [setCount, getCount, h]
  have hzero' : getCount (newChatData uid otherUserId now).unreadCount u = 0 :=
    hzero u hu
  have hnil : db.messages.filter (fun m =>
      decide (m.chatId = (newChatData uid otherUserId now).chatId) &&
      decide (m.senderId ≠ u) && !m.read) = [] := by
    rw [List.filter_eq_nil_iff] at hnomsgs ⊢
    intro m hm
    have := hnomsgs m hm
    simp only [decide_eq_true_eq] at this
    simp [this]
  rw [hzero', hnil]
  rfl

/-- The invariant hypothesis of `markChatRead_resets` is preserved by the
send transaction, for both participants: the recipient gains one unread
message and one counter tick, the sender gains neither. -/
theorem sendMessageTxn_preserves_inv (db : DB)
    (uid chatId text mediaUrl type_ : String) (now : Nat)
    (chatData : Chat) (other u : String)
    (hother : chatData.participants.find? (fun id => decide (id ≠ uid)) = some other)
    (hu : u = uid ∨ u = other)
    (hinv : getCount chatData.unreadCount u =
      (db.messages.filter (fun m =>
        decide (m.chatId = chatId) && decide (m.senderId ≠ u) && !m.read)).length) :
    getCount (setCount chatData.unreadCount other
        (getCount chatData.unreadCount other + 1)) u =
      ((sendMessageTxn db chatData
          (newMessageData db uid chatId text mediaUrl type_ now) other).messages.filter
        (fun m => decide (m.chatId = chatId) && decide (m.senderId ≠ u) && !m.read)).length := by
  have hOtherNe : other ≠ uid := by simpa using List.find?_some hother
  have hmsgs : (sendMessageTxn db chatData
      (newMessageData db uid chatId text mediaUrl type_ now) other).messages =
      db.messages ++ [newMessageData db uid chatId text mediaUrl type_ now] := rfl
  rw [hmsgs, List.filter_append, List.length_append]
  rcases hu with rfl | rfl
  · rw [getCount_setCount_ne _ _ _ _ (Ne.symm hOtherNe), hinv]
    have : List.filter (fun m =>
        decide (m.chatId = chatId) && decide (m.senderId ≠ u) && !m.read)
        [newMessageData db u chatId text mediaUrl type_ now] = [] := by
      simp [newMessageData]
    rw [this]
    rfl
  · rw [getCount_setCount_self, hinv]
    have : List.filter (fun m =>
        decide (m.chatId = chatId) && decide (m.senderId ≠ u) && !m.read)
        [newMessageData db uid chatId text mediaUrl type_ now] =
        [newMessageData db uid chatId text mediaUrl type_ now] := by
      have huid_ne : ¬uid = u := fun hh => hOtherNe hh.symm
      simp [newMessageData, huid_ne]
    rw [this]
    rfl
